import Mathlib

/-!
# Verification of the license-activation service (`src/main.py`)

Shallow embedding of the license server: a spreadsheet-backed record store
(one 4-cell row per machine key), the three license endpoints
(`/license/get-or-create`, `/license/increment-run`, `/license/issue-token`),
the API-key guard, and the offline-token builder.

Modelling conventions:
* An instant in time is an `Int`, seconds since the Unix epoch.  The Python
  code renders instants with `datetime.isoformat(timespec="seconds")` at a
  configured local offset (`tz_now_gmt7`); `fmtIso` reproduces that rendering.
* A spreadsheet cell is a `String`; an empty cell (gspread `None`) is the
  empty string, which Python code treats identically via `value or ""` /
  `value or default` truthiness.
* The external backend (gspread) is a list of rows plus a log of the batched
  `A{row}:D{row}` writes issued against it, so frame conditions ("no store
  write happened") are directly expressible.
* JWT signing (PyJWT, RS256, PEM key loading) is an external collaborator;
  the token is modelled by its payload.
-/

/-! ## Calendar arithmetic (proleptic Gregorian, as used by Python `datetime`) -/

def isLeap (y : Int) : Bool :=
  (y % 4 == 0 && y % 100 != 0) || y % 400 == 0

def daysInMonth (y m : Int) : Int :=
  if m = 2 then (if isLeap y then 29 else 28)
  else if m = 4 ∨ m = 6 ∨ m = 9 ∨ m = 11 then 30
  else 31

/-- Days since 1970-01-01 of a civil date (Howard Hinnant's algorithm,
the standard proleptic-Gregorian conversion `datetime` implements). -/
def daysFromCivil (y m d : Int) : Int :=
  let y' := if m ≤ 2 then y - 1 else y
  let era := y'.fdiv 400
  let yoe := y' - era * 400
  let mp := if m ≤ 2 then m + 9 else m - 3
  let doy := (153 * mp + 2).fdiv 5 + d - 1
  let doe := yoe * 365 + yoe.fdiv 4 - yoe.fdiv 100 + doy
  era * 146097 + doe - 719468

/-- Civil date `(year, month, day)` of a day count since 1970-01-01
(inverse of `daysFromCivil`). -/
def civilFromDays (z : Int) : Int × Int × Int :=
  let z' := z + 719468
  let era := z'.fdiv 146097
  let doe := z' - era * 146097
  let yoe := (doe - doe.fdiv 1460 + doe.fdiv 36524 - doe.fdiv 146096).fdiv 365
  let y := yoe + era * 400
  let doy := doe - (365 * yoe + yoe.fdiv 4 - yoe.fdiv 100)
  let mp := (5 * doy + 2).fdiv 153
  let d := doy - (153 * mp + 2).fdiv 5 + 1
  let m := if mp < 10 then mp + 3 else mp - 9
  (if m ≤ 2 then y + 1 else y, m, d)

/-- Seconds since the epoch of a civil date-time read as UTC wall-clock. -/
def civilSecs (y mo da : Int) (hh mi ss : Int) : Int :=
  daysFromCivil y mo da * 86400 + hh * 3600 + mi * 60 + ss

def pad2 (n : Int) : String :=
  if n < 10 then "0" ++ toString n else toString n

def pad4 (n : Int) : String :=
  if n < 10 then "000" ++ toString n
  else if n < 100 then "00" ++ toString n
  else if n < 1000 then "0" ++ toString n
  else toString n

/-- Python `fmt_iso(dt)` for an instant `t` carried in the fixed-offset timezone
`offHours`: `dt.isoformat(timespec="seconds")`, i.e.
`YYYY-MM-DDTHH:MM:SS±HH:00`.  The record endpoints always render through
`tz_now_gmt7()`, whose offset is the configured `TZ_OFFSET_HOURS`. -/
def fmtIso (offHours : Int) (t : Int) : String :=
  let loc := t + offHours * 3600
  let days := loc.fdiv 86400
  let secs := loc - days * 86400
  let ymd := civilFromDays days
  let hh := secs.fdiv 3600
  let mm := (secs - hh * 3600).fdiv 60
  let ss := secs - hh * 3600 - mm * 60
  let off := if offHours < 0 then "-" ++ pad2 (-offHours) ++ ":00"
             else "+" ++ pad2 offHours ++ ":00"
  pad4 ymd.1 ++ ("-" ++ pad2 ymd.2.1 ++ "-" ++ pad2 ymd.2.2 ++ "T" ++
    pad2 hh ++ ":" ++ pad2 mm ++ ":" ++ pad2 ss ++ off)

/-! ## Python string primitives -/

/-- Python `str.strip()`: drop leading and trailing whitespace. -/
def pyStrip (s : String) : String :=
  ⟨((s.data.dropWhile Char.isWhitespace).reverse.dropWhile Char.isWhitespace).reverse⟩

/-- Python `str.replace("Z", "")`: remove every `'Z'`. -/
def stripZ (s : String) : String :=
  ⟨s.data.filter (fun c => c ≠ 'Z')⟩

/-! ## Python `int()` (run-count cells) -/

def digitVal (c : Char) : Nat := c.toNat - 48

/-- Digit run continuing a numeral: Python's `int()` grammar allows a single
underscore between two digits. -/
def pyDigitsCore : Nat → List Char → Option Nat
  | acc, [] => some acc
  | acc, c :: rest =>
    if c.isDigit then pyDigitsCore (10 * acc + digitVal c) rest
    else if c = '_' then
      match rest with
      | d :: rest' => if d.isDigit then pyDigitsCore (10 * acc + digitVal d) rest' else none
      | [] => none
    else none

def pyNatOfChars : List Char → Option Nat
  | [] => none
  | c :: rest => if c.isDigit then pyDigitsCore (digitVal c) rest else none

/-- Modelled from the spec: Python's built-in `int(str)` (a standard-library
collaborator outside `src/`) on an already-stripped string — an optional
sign followed by a decimal numeral; anything else raises (here: `none`). -/
def pyIntOfString (s : String) : Option Int :=
  match s.data with
  | '+' :: rest => (pyNatOfChars rest).map Int.ofNat
  | '-' :: rest => (pyNatOfChars rest).map (fun n => -(Int.ofNat n))
  | cs => (pyNatOfChars cs).map Int.ofNat

/-- The run-count read performed by every endpoint:
`run_val = cell or "0"; int(str(run_val).strip() or "0")`,
with `except: run_count = 0`. -/
def pyParseRunCell (cellVal : String) : Int :=
  let runVal := if cellVal = "" then "0" else cellVal
  let stripped := pyStrip runVal
  let numeral := if stripped = "" then "0" else stripped
  (pyIntOfString numeral).getD 0

/-! ## ISO-8601 parsing (`parse_iso_maybe`) -/

structure PyDateTime where
  /-- wall-clock seconds since the epoch, read in this datetime's own zone -/
  secs : Int
  /-- Timezone: `none` = naive; `some off` = fixed offset of `off` seconds -/
  tz : Option Int
deriving Repr, DecidableEq

def d2v (a b : Char) : Nat := 10 * digitVal a + digitVal b

def d4v (a b c d : Char) : Nat :=
  1000 * digitVal a + 100 * digitVal b + 10 * digitVal c + digitVal d

def validYMD (y mo da : Int) : Bool :=
  if 1 ≤ mo ∧ mo ≤ 12 ∧ 1 ≤ da ∧ da ≤ daysInMonth y mo then true else false

/-- Trailing `±HH:MM[:SS]` offset (or nothing → naive). -/
def parseOffsetEnd : List Char → Option (Option Int)
  | [] => some none
  | sgn :: h1 :: h2 :: ':' :: m1 :: m2 :: rest =>
    if (sgn = '+' ∨ sgn = '-') ∧ h1.isDigit ∧ h2.isDigit ∧ m1.isDigit ∧ m2.isDigit then
      let hh := (d2v h1 h2 : Int)
      let mm := (d2v m1 m2 : Int)
      if hh ≤ 23 ∧ mm ≤ 59 then
        let base := hh * 3600 + mm * 60
        let signed := fun (v : Int) => if sgn = '-' then -v else v
        match rest with
        | [] => some (some (signed base))
        | ':' :: s1 :: s2 :: [] =>
          if s1.isDigit ∧ s2.isDigit ∧ (d2v s1 s2 : Int) ≤ 59 then
            some (some (signed (base + (d2v s1 s2 : Int))))
          else none
        | _ => none
      else none
    else none
  | _ => none

/-- Optional `.fff` / `.ffffff` fraction (dropped: the service renders and
compares at whole-second precision) followed by an optional offset. -/
def parseFracOffset : List Char → Option (Option Int)
  | '.' :: rest =>
    (match rest with
     | a :: b :: c :: rest' =>
       if a.isDigit ∧ b.isDigit ∧ c.isDigit then
         match rest' with
         | d :: e :: f :: rest'' =>
           if d.isDigit ∧ e.isDigit ∧ f.isDigit then parseOffsetEnd rest''
           else parseOffsetEnd rest'
         | _ => parseOffsetEnd rest'
       else none
     | _ => none)
  | cs => parseOffsetEnd cs

/-- Time part `HH:MM[:SS[.frac]][±HH:MM[:SS]]` after the date separator. -/
def parseTimePart (y mo da : Int) : List Char → Option PyDateTime
  | h1 :: h2 :: ':' :: m1 :: m2 :: rest =>
    if h1.isDigit ∧ h2.isDigit ∧ m1.isDigit ∧ m2.isDigit then
      let hh := (d2v h1 h2 : Int)
      let mi := (d2v m1 m2 : Int)
      if hh ≤ 23 ∧ mi ≤ 59 then
        match rest with
        | ':' :: s1 :: s2 :: rest' =>
          if s1.isDigit ∧ s2.isDigit ∧ (d2v s1 s2 : Int) ≤ 59 then
            (parseFracOffset rest').map fun off =>
              ⟨civilSecs y mo da hh mi (d2v s1 s2 : Int), off⟩
          else none
        | _ =>
          (parseFracOffset rest).map fun off => ⟨civilSecs y mo da hh mi 0, off⟩
      else none
    else none
  | _ => none

/-- Modelled from the spec: Python's `datetime.fromisoformat` (standard
library, outside `src/`) — a full ISO-8601 offset-aware or naive timestamp
`YYYY-MM-DD[<sep>HH:MM[:SS[.frac]][±HH:MM[:SS]]]`. -/
def pyFromIsoformat (s : String) : Option PyDateTime :=
  match s.data with
  | y1 :: y2 :: y3 :: y4 :: '-' :: m1 :: m2 :: '-' :: dd1 :: dd2 :: rest =>
    if y1.isDigit ∧ y2.isDigit ∧ y3.isDigit ∧ y4.isDigit ∧
       m1.isDigit ∧ m2.isDigit ∧ dd1.isDigit ∧ dd2.isDigit then
      let y := (d4v y1 y2 y3 y4 : Int)
      let mo := (d2v m1 m2 : Int)
      let da := (d2v dd1 dd2 : Int)
      if validYMD y mo da then
        match rest with
        | [] => some ⟨civilSecs y mo da 0 0 0, none⟩
        | _ :: timeChars => parseTimePart y mo da timeChars
      else none
    else none
  | _ => none

/-- Modelled from the spec: the `strptime(iso.replace("Z",""),
"%Y-%m-%dT%H:%M:%S")` fallback — an exact naive `YYYY-MM-DDTHH:MM:SS`. -/
def strptimeBasic (s : String) : Option Int :=
  match s.data with
  | y1 :: y2 :: y3 :: y4 :: '-' :: m1 :: m2 :: '-' :: dd1 :: dd2 :: 'T' ::
      h1 :: h2 :: ':' :: mi1 :: mi2 :: ':' :: s1 :: s2 :: [] =>
    if y1.isDigit ∧ y2.isDigit ∧ y3.isDigit ∧ y4.isDigit ∧
       m1.isDigit ∧ m2.isDigit ∧ dd1.isDigit ∧ dd2.isDigit ∧
       h1.isDigit ∧ h2.isDigit ∧ mi1.isDigit ∧ mi2.isDigit ∧
       s1.isDigit ∧ s2.isDigit then
      let y := (d4v y1 y2 y3 y4 : Int)
      let mo := (d2v m1 m2 : Int)
      let da := (d2v dd1 dd2 : Int)
      let hh := (d2v h1 h2 : Int)
      let mi := (d2v mi1 mi2 : Int)
      let ss := (d2v s1 s2 : Int)
      if validYMD y mo da ∧ hh ≤ 23 ∧ mi ≤ 59 ∧ ss ≤ 59 then
        some (civilSecs y mo da hh mi ss)
      else none
    else none
  | _ => none

/-- Source `parse_iso_maybe`: strip; empty → `None`; try `fromisoformat`
(naive assumed UTC, aware converted to UTC); on failure retry as a naive
basic timestamp with every `"Z"` removed; else `None`.
The result is a UTC instant. -/
def parseIsoMaybe (iso : String) : Option Int :=
  let t := pyStrip iso
  if t = "" then none
  else
    match pyFromIsoformat t with
    | some dt =>
      some (match dt.tz with
            | none => dt.secs
            | some off => dt.secs - off)
    | none => strptimeBasic (stripZ t)

example : parseIsoMaybe "2024-01-02T03:04:05+07:00" = some 1704139445 := by decide
example : parseIsoMaybe "2024-01-02T03:04:05" = some 1704164645 := by decide
example : parseIsoMaybe "2024-01-02T03:04:05Z" = some 1704164645 := by decide
example : parseIsoMaybe "garbage" = none := by decide
example : parseIsoMaybe "" = none := by decide
example : fmtIso 7 0 = "1970-01-01T07:00:00+07:00" := by decide
example : parseIsoMaybe (fmtIso 7 1704139445) = some 1704139445 := by decide
example : pyParseRunCell "" = 0 := by decide
example : pyParseRunCell "abc" = 0 := by decide
example : pyParseRunCell " 42 " = 42 := by decide
example : pyParseRunCell "-3" = -3 := by decide

/-! ## Configuration (environment, read once at startup) -/

structure Config where
  /-- Env `LICENSE_API_KEY` (stripped); empty disables authentication. -/
  licenseApiKey : String
  /-- Env `TZ_OFFSET_HOURS` (default 7): offset of `tz_now_gmt7()`. -/
  tzOffsetHours : Int
  /-- Env `TOKEN_TTL_DAYS` (default 14): offline-token TTL. -/
  tokenTtlDays : Int
  /-- Env `LICENSE_AUD`; empty omits the audience claim. -/
  licenseAud : String
deriving Repr, DecidableEq

/-! ## The worksheet: rows of four cells, plus the write log -/

structure Row where
  key : String
  activatedAt : String
  expiresAt : String
  runCount : String
deriving Repr, DecidableEq, Inhabited

/-- The worksheet state: its rows (in sheet order), and the log of batched
`ws.update("A{row}:D{row}", ...)` writes issued so far, so that "no store
write occurred" is directly expressible. -/
structure Sheet where
  rows : List Row
  writes : List (Nat × Row)
deriving Repr, DecidableEq, Inhabited

/-- Source `_ensure_row(ws, row, ...)`: one batched overwrite of cells A..D of
`row` (1-based); writing at index `rows.length + 1` appends.  The run count
is stored via Python `str(run_count)`. -/
def ensureRow (s : Sheet) (row : Nat) (machineKey activatedAt expiresAt : String)
    (runCount : Int) : Sheet :=
  let r : Row := ⟨machineKey, activatedAt, expiresAt, toString runCount⟩
  { rows := if row - 1 < s.rows.length then s.rows.set (row - 1) r else s.rows ++ [r],
    writes := s.writes ++ [(row, r)] }

/-- Source `_find_row_by_key`: scan the key column top to bottom; return the first
1-based row whose *stripped* key cell equals the raw `machine_key`. -/
def findRowByKey (rows : List Row) (machineKey : String) : Option Nat :=
  match rows with
  | [] => none
  | r :: rest =>
    if pyStrip r.key == machineKey then some 1
    else (findRowByKey rest machineKey).map (· + 1)

/-! ## Responses and token payload -/

structure LicenseResponse where
  machine_key : String
  activated_at : String
  expires_at : String
  run_count : Int
  created : Bool
deriving Repr, DecidableEq

/-- The claims of the RS256 JWT built by `build_offline_token`; the
signature (PyJWT + private key) is an external collaborator. -/
structure TokenPayload where
  machine_key : String
  rc : Int
  iat : Int
  nbf : Int
  exp : Int
  aud : Option String
deriving Repr, DecidableEq

/-- Source `build_offline_token`: token expiry is
`min(parsed stored expiry, now + TOKEN_TTL_DAYS)`, with a failed parse
falling back to `now + TOKEN_TTL_DAYS`.  `now` is the UTC instant
(`tz_now_gmt()`). -/
def buildOfflineToken (cfg : Config) (now : Int) (machineKey : String)
    (runCount : Int) (dbExpiresAtIso : String) : TokenPayload :=
  let ttlExp := now + cfg.tokenTtlDays * 86400
  let dbExp := (parseIsoMaybe dbExpiresAtIso).getD ttlExp
  let expDt := min dbExp ttlExp
  { machine_key := machineKey, rc := runCount, iat := now, nbf := now, exp := expDt,
    aud := if cfg.licenseAud = "" then none else some cfg.licenseAud }

/-- Reads of the three data cells of a found row (`ws.cell(row, COL)`),
with gspread's `None` for an empty cell modelled as `""`. -/
def wsGetRow (rows : List Row) (row : Nat) : Row :=
  rows.getD (row - 1) default

/-! ## Endpoint handlers

Each handler takes the current instant `now` (a request evaluates
`tz_now_gmt7()` / `tz_now_gmt()` during a single request; the embedding
passes the one instant explicitly) and the worksheet, and returns the
response plus the worksheet after the call. -/

/-- Handler body of `POST /license/get-or-create`. -/
def licenseGetOrCreate (cfg : Config) (now : Int) (s : Sheet) (machineKey : String) :
    LicenseResponse × Sheet :=
  match findRowByKey s.rows machineKey with
  | none =>
    let row := s.rows.length + 1
    let activatedAt := fmtIso cfg.tzOffsetHours now
    let expiresAt := fmtIso cfg.tzOffsetHours (now + 7 * 86400)
    let s' := ensureRow s row machineKey activatedAt expiresAt 0
    (⟨machineKey, activatedAt, expiresAt, 0, true⟩, s')
  | some row =>
    let stored := wsGetRow s.rows row
    let runCount := pyParseRunCell stored.runCount
    let activatedAt :=
      if stored.activatedAt = "" then fmtIso cfg.tzOffsetHours now else stored.activatedAt
    let expiresAt :=
      if stored.expiresAt = "" then fmtIso cfg.tzOffsetHours (now + 7 * 86400)
      else stored.expiresAt
    let s' :=
      if stored.activatedAt = "" ∨ stored.expiresAt = "" then
        ensureRow s row machineKey activatedAt expiresAt runCount
      else s
    (⟨machineKey, activatedAt, expiresAt, runCount, false⟩, s')

/-- Handler body of `POST /license/increment-run`. -/
def licenseIncrementRun (cfg : Config) (now : Int) (s : Sheet) (machineKey : String) :
    LicenseResponse × Sheet :=
  match findRowByKey s.rows machineKey with
  | none =>
    let row := s.rows.length + 1
    let activatedAt := fmtIso cfg.tzOffsetHours now
    let expiresAt := fmtIso cfg.tzOffsetHours (now + 7 * 86400)
    let s1 := ensureRow s row machineKey activatedAt expiresAt 0
    let runCount := 0 + 1
    let s2 := ensureRow s1 row machineKey activatedAt expiresAt runCount
    (⟨machineKey, activatedAt, expiresAt, runCount, true⟩, s2)
  | some row =>
    let stored := wsGetRow s.rows row
    let activatedAt :=
      if stored.activatedAt = "" then fmtIso cfg.tzOffsetHours now else stored.activatedAt
    let expiresAt :=
      if stored.expiresAt = "" then fmtIso cfg.tzOffsetHours (now + 7 * 86400)
      else stored.expiresAt
    let runCount := pyParseRunCell stored.runCount + 1
    let s' := ensureRow s row machineKey activatedAt expiresAt runCount
    (⟨machineKey, activatedAt, expiresAt, runCount, false⟩, s')

/-- Handler body of `POST /license/issue-token` (the response is the signed
token; modelled by its payload). -/
def licenseIssueToken (cfg : Config) (now : Int) (s : Sheet) (machineKey : String) :
    TokenPayload × Sheet :=
  match findRowByKey s.rows machineKey with
  | none =>
    let row := s.rows.length + 1
    let activatedAt := fmtIso cfg.tzOffsetHours now
    let expiresAt := fmtIso cfg.tzOffsetHours (now + 7 * 86400)
    let s' := ensureRow s row machineKey activatedAt expiresAt 0
    (buildOfflineToken cfg now machineKey 0 expiresAt, s')
  | some row =>
    let stored := wsGetRow s.rows row
    let expiresAt :=
      if stored.expiresAt = "" then fmtIso cfg.tzOffsetHours (now + 7 * 86400)
      else stored.expiresAt
    let runCount := pyParseRunCell stored.runCount
    (buildOfflineToken cfg now machineKey runCount expiresAt, s)

/-! ## API-key guard and guarded endpoints -/

/-- Source `verify_api_key`: with a configured non-empty key, reject when the
`X-API-Key` header is missing, empty (falsy), or different; with an empty
configured key, authentication is disabled.  `true` = request admitted. -/
def verifyApiKey (cfg : Config) (xApiKey : Option String) : Bool :=
  if cfg.licenseApiKey = "" then true
  else
    match xApiKey with
    | none => false
    | some h => !(h == "" || h != cfg.licenseApiKey)

inductive ApiResult (α : Type) where
  | ok : α → ApiResult α
  | unauthorized : ApiResult α
deriving Repr, DecidableEq

/-- The FastAPI dependency runs `verify_api_key` before the handler body
touches the sheet; a 401 reaches neither `open_sheet()` nor any cell. -/
def postLicenseGetOrCreate (cfg : Config) (xApiKey : Option String) (now : Int)
    (s : Sheet) (machineKey : String) : ApiResult LicenseResponse × Sheet :=
  if verifyApiKey cfg xApiKey then
    let p := licenseGetOrCreate cfg now s machineKey
    (ApiResult.ok p.1, p.2)
  else (ApiResult.unauthorized, s)

def postLicenseIncrementRun (cfg : Config) (xApiKey : Option String) (now : Int)
    (s : Sheet) (machineKey : String) : ApiResult LicenseResponse × Sheet :=
  if verifyApiKey cfg xApiKey then
    let p := licenseIncrementRun cfg now s machineKey
    (ApiResult.ok p.1, p.2)
  else (ApiResult.unauthorized, s)

def postLicenseIssueToken (cfg : Config) (xApiKey : Option String) (now : Int)
    (s : Sheet) (machineKey : String) : ApiResult TokenPayload × Sheet :=
  if verifyApiKey cfg xApiKey then
    let p := licenseIssueToken cfg now s machineKey
    (ApiResult.ok p.1, p.2)
  else (ApiResult.unauthorized, s)

/-! ## Concrete fixtures -/

/-- The row every creation path writes: activated now, expires now + 7
days, run count `"0"` (all rendered at the configured local offset). -/
def newLicenseRow (cfg : Config) (now : Int) (k : String) : Row :=
  ⟨k, fmtIso cfg.tzOffsetHours now, fmtIso cfg.tzOffsetHours (now + 7 * 86400), "0"⟩

/-- Default configuration: auth disabled, `TZ_OFFSET_HOURS = 7`,
`TOKEN_TTL_DAYS = 14`, no audience. -/
def cfg0 : Config :=
  { licenseApiKey := "", tzOffsetHours := 7, tokenTtlDays := 14, licenseAud := "" }

/-- Configuration with authentication enabled. -/
def cfgAuth : Config :=
  { licenseApiKey := "secret", tzOffsetHours := 7, tokenTtlDays := 14, licenseAud := "" }

def emptySheet : Sheet := { rows := [], writes := [] }

/-- One fully-populated row. -/
def completeSheet : Sheet :=
  { rows := [⟨"abc123", "2024-01-01T00:00:00+07:00", "2024-01-08T00:00:00+07:00", "5"⟩],
    writes := [] }

/-- One row with empty `activated_at` and `expires_at` cells. -/
def repairSheet : Sheet := { rows := [⟨"k", "", "", "0"⟩], writes := [] }

/-- One row whose run-count cell is not numeric. -/
def badCountSheet : Sheet :=
  { rows := [⟨"abc123", "2024-01-01T00:00:00+07:00", "2099-01-01T00:00:00+07:00",
      "not-a-number"⟩],
    writes := [] }

/-! ## Helper lemmas -/

theorem fmtIso_ne_empty (o t : Int) : fmtIso o t ≠ "" := by
  intro h
  have hlen := congrArg String.length h
  have hT : ("T" : String).length = 1 := rfl
  have hE : ("" : String).length = 0 := rfl
  simp only [fmtIso, String.length_append] at hlen
  omega

theorem findRowByKey_append_of_none (rows : List Row) (k : String) (r : Row)
    (h : findRowByKey rows k = none) :
    findRowByKey (rows ++ [r]) k =
      if pyStrip r.key == k then some (rows.length + 1) else none := by
  induction rows with
  | nil => simp [findRowByKey]
  | cons a rest ih =>
    rw [findRowByKey] at h
    rw [List.cons_append, findRowByKey]
    by_cases hk : (pyStrip a.key == k) = true
    · rw [if_pos hk] at h; cases h
    · rw [if_neg hk] at h
      rw [if_neg hk]
      rw [Option.map_eq_none'] at h
      rw [ih h]
      by_cases hr : (pyStrip r.key == k) = true
      · rw [if_pos hr, if_pos hr]
        simp [List.length_cons]
      · rw [if_neg hr, if_neg hr]
        rfl

theorem findRowByKey_some_bounds (rows : List Row) (k : String) (i : Nat)
    (h : findRowByKey rows k = some i) : 1 ≤ i ∧ i - 1 < rows.length := by
  induction rows generalizing i with
  | nil => simp [findRowByKey] at h
  | cons a rest ih =>
    rw [findRowByKey] at h
    by_cases hk : (pyStrip a.key == k) = true
    · rw [if_pos hk] at h
      injection h with h1
      subst h1
      simp
    · rw [if_neg hk] at h
      rw [Option.map_eq_some'] at h
      obtain ⟨j, hj, hji⟩ := h
      have hb := ih j hj
      subst hji
      simp only [List.length_cons]
      omega

theorem list_set_append_length {α : Type} (l : List α) (x y : α) :
    (l ++ [x]).set l.length y = l ++ [y] := by
  induction l with
  | nil => rfl
  | cons a rest ih =>
    show a :: ((rest ++ [x]).set rest.length y) = a :: (rest ++ [y])
    rw [ih]

theorem list_getD_append_length {α : Type} (l : List α) (x d : α) :
    (l ++ [x]).getD l.length d = x := by
  induction l with
  | nil => rfl
  | cons a rest ih =>
    show (rest ++ [x]).getD rest.length d = x
    exact ih

theorem list_getD_set_self {α : Type} (l : List α) (n : Nat) (y d : α)
    (h : n < l.length) : (l.set n y).getD n d = y := by
  induction l generalizing n with
  | nil => simp at h
  | cons a rest ih =>
    cases n with
    | zero => rfl
    | succ m =>
      have hm : m < rest.length := by simpa using h
      show (rest.set m y).getD m d = y
      exact ih m hm

theorem pyParseRunCell_eq_zero (cell : String)
    (h : pyStrip cell = "" ∨ pyIntOfString (pyStrip cell) = none) :
    pyParseRunCell cell = 0 := by
  by_cases hc : cell = ""
  · subst hc; decide
  · simp only [pyParseRunCell, hc, if_false]
    by_cases hs : pyStrip cell = ""
    · simp only [hs, if_true]; decide
    · simp only [hs, if_false]
      rcases h with h1 | h2
      · exact absurd h1 hs
      · rw [h2]; rfl

theorem goc_none_state (cfg : Config) (now : Int) (s : Sheet) (k : String)
    (hf : findRowByKey s.rows k = none) :
    (licenseGetOrCreate cfg now s k).2 =
      { rows := s.rows ++ [newLicenseRow cfg now k],
        writes := s.writes ++ [(s.rows.length + 1, newLicenseRow cfg now k)] } ∧
    (licenseGetOrCreate cfg now s k).1 =
      ⟨k, fmtIso cfg.tzOffsetHours now, fmtIso cfg.tzOffsetHours (now + 7 * 86400), 0, true⟩ := by
  constructor <;>
    simp [licenseGetOrCreate, hf, ensureRow, newLicenseRow,
      show toString (0 : Int) = "0" from rfl]

/-! ## Claim theorems -/

/-- C1: for every key not present in the store, `get-or-create` appends a
new row and returns `created = true`, `run_count = 0`, `activated_at` the
current local time, and `expires_at` exactly `activated_at` plus the
default 7 days (both cells render the same instant `now`, shifted by
`7 * 86400` seconds, at the configured local offset). -/
theorem getOrCreate_unseen_creates (cfg : Config) (now : Int) (s : Sheet) (k : String)
    (hf : findRowByKey s.rows k = none) :
    (licenseGetOrCreate cfg now s k).1 =
      ⟨k, fmtIso cfg.tzOffsetHours now, fmtIso cfg.tzOffsetHours (now + 7 * 86400), 0, true⟩ ∧
    (licenseGetOrCreate cfg now s k).2.rows =
      s.rows ++ [⟨k, fmtIso cfg.tzOffsetHours now,
        fmtIso cfg.tzOffsetHours (now + 7 * 86400), "0"⟩] := by
  obtain ⟨hstate, hresp⟩ := goc_none_state cfg now s k hf
  exact ⟨hresp, by rw [hstate]; simp [newLicenseRow]⟩

theorem getOrCreate_unseen_creates_witness :
    findRowByKey emptySheet.rows "abc123" = none ∧
    ((licenseGetOrCreate cfg0 0 emptySheet "abc123").1 =
      ⟨"abc123", fmtIso 7 0, fmtIso 7 (0 + 7 * 86400), 0, true⟩ ∧
     (licenseGetOrCreate cfg0 0 emptySheet "abc123").2.rows =
      emptySheet.rows ++ [⟨"abc123", fmtIso 7 0, fmtIso 7 (0 + 7 * 86400), "0"⟩]) :=
  ⟨by decide, getOrCreate_unseen_creates cfg0 0 emptySheet "abc123" (by decide)⟩

/-- C6: for every key whose stored row has non-empty `activated_at` and
`expires_at` cells, `get-or-create` returns `created = false` and performs
no store write — the whole sheet (rows and write log) is unchanged, so in
particular the stored row's four cells are identical before and after. -/
theorem getOrCreate_complete_row_no_write (cfg : Config) (now : Int) (s : Sheet)
    (k : String) (r : Nat) (hf : findRowByKey s.rows k = some r)
    (ha : (wsGetRow s.rows r).activatedAt ≠ "")
    (he : (wsGetRow s.rows r).expiresAt ≠ "") :
    (licenseGetOrCreate cfg now s k).1.created = false ∧
    (licenseGetOrCreate cfg now s k).2 = s := by
  constructor
  · simp [licenseGetOrCreate, hf]
  · simp [licenseGetOrCreate, hf, ha, he]

theorem getOrCreate_complete_row_no_write_witness :
    findRowByKey completeSheet.rows "abc123" = some 1 ∧
    (wsGetRow completeSheet.rows 1).activatedAt ≠ "" ∧
    (wsGetRow completeSheet.rows 1).expiresAt ≠ "" ∧
    ((licenseGetOrCreate cfg0 0 completeSheet "abc123").1.created = false ∧
     (licenseGetOrCreate cfg0 0 completeSheet "abc123").2 = completeSheet) :=
  ⟨by decide, by decide, by decide,
   getOrCreate_complete_row_no_write cfg0 0 completeSheet "abc123" 1
     (by decide) (by decide) (by decide)⟩

/-- C2: for every key, `increment-run` stores and returns exactly the
pre-call run count plus one: the pre-call value is the parsed run-count
cell of the found row (0 when the cell is missing or unparseable) or 0 on
the creation path, and after the call the run-count cell of the written
row holds `str(pre + 1)` while the response carries `pre + 1`. -/
theorem incrementRun_plus_one (cfg : Config) (now : Int) (s : Sheet) (k : String) :
    (licenseIncrementRun cfg now s k).1.run_count =
      (match findRowByKey s.rows k with
        | some r => pyParseRunCell ((wsGetRow s.rows r).runCount)
        | none => 0) + 1 ∧
    ((licenseIncrementRun cfg now s k).2.rows.getD
        ((match findRowByKey s.rows k with
          | some r => r
          | none => s.rows.length + 1) - 1) default).runCount =
      toString ((match findRowByKey s.rows k with
        | some r => pyParseRunCell ((wsGetRow s.rows r).runCount)
        | none => 0) + 1) := by
  cases hf : findRowByKey s.rows k with
  | none =>
    constructor
    · simp [licenseIncrementRun, hf]
    · simp [licenseIncrementRun, hf, ensureRow, list_set_append_length,
        list_getD_append_length]
  | some r =>
    obtain ⟨h1, h2⟩ := findRowByKey_some_bounds s.rows k r hf
    constructor
    · simp [licenseIncrementRun, hf]
    · simp [licenseIncrementRun, hf, ensureRow, h2, list_getD_set_self]

/-- C10: on the creation path, `increment-run` issues two full-row batched
writes in one call — first the new row with run count `"0"`, then the same
row again with run count `"1"` — and the final stored and returned run
count is 1. -/
theorem incrementRun_creation_double_write (cfg : Config) (now : Int) (s : Sheet)
    (k : String) (hf : findRowByKey s.rows k = none) :
    (licenseIncrementRun cfg now s k).2.writes =
      s.writes ++ [(s.rows.length + 1, newLicenseRow cfg now k),
        (s.rows.length + 1, { newLicenseRow cfg now k with runCount := "1" })] ∧
    (licenseIncrementRun cfg now s k).2.rows =
      s.rows ++ [{ newLicenseRow cfg now k with runCount := "1" }] ∧
    (licenseIncrementRun cfg now s k).1.run_count = 1 := by
  refine ⟨?_, ?_, ?_⟩ <;>
    simp [licenseIncrementRun, hf, ensureRow, list_set_append_length, newLicenseRow,
      show toString (0 : Int) = "0" from rfl, show toString (1 : Int) = "1" from rfl]

theorem incrementRun_creation_double_write_witness :
    findRowByKey emptySheet.rows "abc123" = none ∧
    ((licenseIncrementRun cfg0 0 emptySheet "abc123").2.writes =
      emptySheet.writes ++ [(1, newLicenseRow cfg0 0 "abc123"),
        (1, { newLicenseRow cfg0 0 "abc123" with runCount := "1" })] ∧
     (licenseIncrementRun cfg0 0 emptySheet "abc123").2.rows =
      emptySheet.rows ++ [{ newLicenseRow cfg0 0 "abc123" with runCount := "1" }] ∧
     (licenseIncrementRun cfg0 0 emptySheet "abc123").1.run_count = 1) :=
  ⟨by decide, incrementRun_creation_double_write cfg0 0 emptySheet "abc123" (by decide)⟩

/-- C3: the expiry of an issued token equals
`min(parsed stored expiry, now + TOKEN_TTL_DAYS)`; when the stored expiry
string does not parse, the parse result is substituted by
`now + TOKEN_TTL_DAYS`, so the token expiry is then exactly that bound.
`parseIsoMaybe` accepts offset-aware and naive ISO-8601 timestamps, naive
ones read as UTC. -/
theorem token_expiry_clamped (cfg : Config) (now : Int) (k : String) (rc : Int)
    (iso : String) :
    (∀ t, parseIsoMaybe iso = some t →
      (buildOfflineToken cfg now k rc iso).exp = min t (now + cfg.tokenTtlDays * 86400)) ∧
    (parseIsoMaybe iso = none →
      (buildOfflineToken cfg now k rc iso).exp = now + cfg.tokenTtlDays * 86400) := by
  constructor
  · intro t ht
    simp [buildOfflineToken, ht]
  · intro hn
    simp [buildOfflineToken, hn]

theorem token_expiry_clamped_witness :
    (parseIsoMaybe "2100-01-01T00:00:00+00:00" = some 4102444800 ∧
      (buildOfflineToken cfg0 0 "mk" 3 "2100-01-01T00:00:00+00:00").exp =
        min 4102444800 (0 + 14 * 86400)) ∧
    (parseIsoMaybe "not-a-date" = none ∧
      (buildOfflineToken cfg0 0 "mk" 3 "not-a-date").exp = 0 + 14 * 86400) :=
  ⟨⟨by decide,
    (token_expiry_clamped cfg0 0 "mk" 3 "2100-01-01T00:00:00+00:00").1 4102444800 (by decide)⟩,
   ⟨by decide, (token_expiry_clamped cfg0 0 "mk" 3 "not-a-date").2 (by decide)⟩⟩

/-- C4 counterexample: for an existing row with empty `activated_at` and
`expires_at` cells, `issue-token` does NOT persist the backfilled
defaults — the sheet is returned unchanged (no write logged, cells still
empty), contradicting the claim that the repaired row is written back. -/
theorem issueToken_counterexample_no_persist :
    (licenseIssueToken cfg0 0 repairSheet "k").2 = repairSheet ∧
    (licenseIssueToken cfg0 0 repairSheet "k").2.writes = [] ∧
    ((licenseIssueToken cfg0 0 repairSheet "k").2.rows.getD 0 default).activatedAt = "" ∧
    ((licenseIssueToken cfg0 0 repairSheet "k").2.rows.getD 0 default).expiresAt = "" := by
  decide

/-- C4 (amended): `issue-token` ensures the record exists — for an unseen
key it performs exactly the creation write of `get-or-create` — but for an
existing row it performs no store write at all: empty cells are backfilled
only in the in-memory values fed to the token, never persisted; the run
count is read (defaulting to 0) and never incremented, and only the token
is returned. -/
theorem issueToken_repair_in_memory_only (cfg : Config) (now : Int) (s : Sheet)
    (k : String) :
    (findRowByKey s.rows k = none →
      (licenseIssueToken cfg now s k).2 = (licenseGetOrCreate cfg now s k).2) ∧
    (∀ r, findRowByKey s.rows k = some r →
      (licenseIssueToken cfg now s k).2 = s ∧
      (licenseIssueToken cfg now s k).1.rc = pyParseRunCell ((wsGetRow s.rows r).runCount)) := by
  constructor
  · intro hf
    simp [licenseIssueToken, licenseGetOrCreate, hf]
  · intro r hf
    refine ⟨?_, ?_⟩ <;> simp [licenseIssueToken, hf, buildOfflineToken]

theorem issueToken_repair_in_memory_only_witness :
    (findRowByKey emptySheet.rows "mk" = none ∧
      (licenseIssueToken cfg0 0 emptySheet "mk").2 = (licenseGetOrCreate cfg0 0 emptySheet "mk").2) ∧
    (findRowByKey repairSheet.rows "k" = some 1 ∧
      ((licenseIssueToken cfg0 0 repairSheet "k").2 = repairSheet ∧
       (licenseIssueToken cfg0 0 repairSheet "k").1.rc =
         pyParseRunCell ((wsGetRow repairSheet.rows 1).runCount))) :=
  ⟨⟨by decide, (issueToken_repair_in_memory_only cfg0 0 emptySheet "mk").1 (by decide)⟩,
   ⟨by decide, (issueToken_repair_in_memory_only cfg0 0 repairSheet "k").2 1 (by decide)⟩⟩

/-- C5 counterexample: the three record-creation code paths all produce the
same default expiry — activation plus 7 days — on identical inputs; no
creation path uses a 14-day window (the 7-day and 14-day expiries render
differently). -/
theorem creation_window_uniform_counterexample :
    ((licenseGetOrCreate cfg0 0 emptySheet "k").2.rows.getD 0 default).expiresAt =
      ((licenseIncrementRun cfg0 0 emptySheet "k").2.rows.getD 0 default).expiresAt ∧
    ((licenseGetOrCreate cfg0 0 emptySheet "k").2.rows.getD 0 default).expiresAt =
      ((licenseIssueToken cfg0 0 emptySheet "k").2.rows.getD 0 default).expiresAt ∧
    ((licenseGetOrCreate cfg0 0 emptySheet "k").2.rows.getD 0 default).expiresAt =
      fmtIso 7 (7 * 86400) ∧
    fmtIso 7 (7 * 86400) ≠ fmtIso 7 (14 * 86400) := by
  decide

/-- C5 (amended): every record-creation code path — `get-or-create`,
`increment-run`, and `issue-token` — creates new records with the same
7-day default activation window; the 14-day constant in the program is the
default offline-token TTL (`TOKEN_TTL_DAYS`), not a record-creation
window. -/
theorem creation_default_seven_days_all_paths (cfg : Config) (now : Int) (s : Sheet)
    (k : String) (hf : findRowByKey s.rows k = none) :
    (licenseGetOrCreate cfg now s k).2.rows = s.rows ++ [newLicenseRow cfg now k] ∧
    (licenseIncrementRun cfg now s k).2.rows =
      s.rows ++ [{ newLicenseRow cfg now k with runCount := "1" }] ∧
    (licenseIssueToken cfg now s k).2.rows = s.rows ++ [newLicenseRow cfg now k] ∧
    (newLicenseRow cfg now k).expiresAt = fmtIso cfg.tzOffsetHours (now + 7 * 86400) ∧
    (newLicenseRow cfg now k).activatedAt = fmtIso cfg.tzOffsetHours now := by
  refine ⟨?_, ?_, ?_, rfl, rfl⟩ <;>
    simp [licenseGetOrCreate, licenseIncrementRun, licenseIssueToken, hf, ensureRow,
      list_set_append_length, newLicenseRow,
      show toString (0 : Int) = "0" from rfl, show toString (1 : Int) = "1" from rfl]

theorem creation_default_seven_days_all_paths_witness :
    findRowByKey emptySheet.rows "mk" = none ∧
    ((licenseGetOrCreate cfg0 0 emptySheet "mk").2.rows =
      emptySheet.rows ++ [newLicenseRow cfg0 0 "mk"] ∧
     (licenseIncrementRun cfg0 0 emptySheet "mk").2.rows =
      emptySheet.rows ++ [{ newLicenseRow cfg0 0 "mk" with runCount := "1" }] ∧
     (licenseIssueToken cfg0 0 emptySheet "mk").2.rows =
      emptySheet.rows ++ [newLicenseRow cfg0 0 "mk"] ∧
     (newLicenseRow cfg0 0 "mk").expiresAt = fmtIso 7 (0 + 7 * 86400) ∧
     (newLicenseRow cfg0 0 "mk").activatedAt = fmtIso 7 0) :=
  ⟨by decide, creation_default_seven_days_all_paths cfg0 0 emptySheet "mk" (by decide)⟩

/-- C7 counterexample: for a key with surrounding whitespace, the stored
key cell is compared *stripped* against the *raw* request key, so a second
`get-or-create` on the very key just created fails to find the row and
creates it again: the second call returns `created = true` and appends a
second row, contradicting idempotence as claimed for every unseen key. -/
theorem getOrCreate_twice_counterexample :
    (licenseGetOrCreate cfg0 0
        (licenseGetOrCreate cfg0 0 emptySheet " padded").2 " padded").1.created = true ∧
    (licenseGetOrCreate cfg0 0
        (licenseGetOrCreate cfg0 0 emptySheet " padded").2 " padded").2.rows.length = 2 ∧
    (licenseGetOrCreate cfg0 0 emptySheet " padded").2.rows.length = 1 := by
  decide

/-- C7 (amended): for keys that equal their stripped form (no surrounding
whitespace), calling `get-or-create` twice in a row on an unseen key gives
a second call that performs no store mutation and returns exactly the
record written by the first call with `created = false`; a key with
surrounding whitespace is instead re-created on every call, because the
lookup compares the stripped stored key with the raw request key. -/
theorem getOrCreate_idempotent_trimmed (cfg : Config) (now now2 : Int) (s : Sheet)
    (k : String) (hk : pyStrip k = k) (hf : findRowByKey s.rows k = none) :
    (licenseGetOrCreate cfg now2 (licenseGetOrCreate cfg now s k).2 k).2 =
      (licenseGetOrCreate cfg now s k).2 ∧
    (licenseGetOrCreate cfg now2 (licenseGetOrCreate cfg now s k).2 k).1 =
      { (licenseGetOrCreate cfg now s k).1 with created := false } := by
  obtain ⟨hstate, hresp⟩ := goc_none_state cfg now s k hf
  rw [hresp]
  set s1 := (licenseGetOrCreate cfg now s k).2 with hs1
  have hrows : s1.rows = s.rows ++ [newLicenseRow cfg now k] := by
    rw [hstate]
  have hfind1 : findRowByKey s1.rows k = some (s.rows.length + 1) := by
    rw [hrows, findRowByKey_append_of_none s.rows k _ hf]
    simp [newLicenseRow, hk]
  have hstored : wsGetRow s1.rows (s.rows.length + 1) = newLicenseRow cfg now k := by
    simp only [wsGetRow, hrows, Nat.add_sub_cancel]
    exact list_getD_append_length _ _ _
  constructor
  · simp [licenseGetOrCreate, hfind1, hstored, newLicenseRow, fmtIso_ne_empty]
  · simp [licenseGetOrCreate, hfind1, hstored, newLicenseRow, fmtIso_ne_empty,
      show pyParseRunCell "0" = 0 from by decide]

theorem getOrCreate_idempotent_trimmed_witness :
    pyStrip "abc123" = "abc123" ∧
    findRowByKey emptySheet.rows "abc123" = none ∧
    ((licenseGetOrCreate cfg0 5 (licenseGetOrCreate cfg0 0 emptySheet "abc123").2 "abc123").2 =
      (licenseGetOrCreate cfg0 0 emptySheet "abc123").2 ∧
     (licenseGetOrCreate cfg0 5 (licenseGetOrCreate cfg0 0 emptySheet "abc123").2 "abc123").1 =
      { (licenseGetOrCreate cfg0 0 emptySheet "abc123").1 with created := false }) :=
  ⟨by decide, by decide,
   getOrCreate_idempotent_trimmed cfg0 0 5 emptySheet "abc123" (by decide) (by decide)⟩

/-- C8: with a non-empty configured API key, any request whose API-key
header is absent or different is answered `unauthorized` with the sheet
untouched — the rejection result is the same for every sheet, so the store
is neither read nor written; with an empty configured key, authentication
is disabled and every request runs the handler. -/
theorem auth_rejects_before_store (cfg : Config) (hdr : Option String) (now : Int)
    (s : Sheet) (k : String) :
    (cfg.licenseApiKey ≠ "" → hdr ≠ some cfg.licenseApiKey →
      postLicenseGetOrCreate cfg hdr now s k = (ApiResult.unauthorized, s) ∧
      postLicenseIncrementRun cfg hdr now s k = (ApiResult.unauthorized, s) ∧
      postLicenseIssueToken cfg hdr now s k = (ApiResult.unauthorized, s)) ∧
    (cfg.licenseApiKey = "" →
      postLicenseGetOrCreate cfg hdr now s k =
        (ApiResult.ok (licenseGetOrCreate cfg now s k).1, (licenseGetOrCreate cfg now s k).2) ∧
      postLicenseIncrementRun cfg hdr now s k =
        (ApiResult.ok (licenseIncrementRun cfg now s k).1, (licenseIncrementRun cfg now s k).2) ∧
      postLicenseIssueToken cfg hdr now s k =
        (ApiResult.ok (licenseIssueToken cfg now s k).1, (licenseIssueToken cfg now s k).2)) := by
  constructor
  · intro hne hh
    have hv : verifyApiKey cfg hdr = false := by
      unfold verifyApiKey
      rw [if_neg hne]
      cases hdr with
      | none => rfl
      | some h =>
        have hne2 : h ≠ cfg.licenseApiKey := fun he => hh (by rw [he])
        simp [hne2]
    refine ⟨?_, ?_, ?_⟩ <;>
      simp [postLicenseGetOrCreate, postLicenseIncrementRun, postLicenseIssueToken, hv]
  · intro he
    have hv : verifyApiKey cfg hdr = true := by
      unfold verifyApiKey
      rw [if_pos he]
    refine ⟨?_, ?_, ?_⟩ <;>
      simp [postLicenseGetOrCreate, postLicenseIncrementRun, postLicenseIssueToken, hv]

theorem auth_rejects_before_store_witness :
    (cfgAuth.licenseApiKey ≠ "" ∧ (none : Option String) ≠ some cfgAuth.licenseApiKey ∧
      postLicenseGetOrCreate cfgAuth none 0 completeSheet "abc123" =
        (ApiResult.unauthorized, completeSheet)) ∧
    (cfg0.licenseApiKey = "" ∧
      postLicenseIncrementRun cfg0 none 0 emptySheet "mk" =
        (ApiResult.ok (licenseIncrementRun cfg0 0 emptySheet "mk").1,
          (licenseIncrementRun cfg0 0 emptySheet "mk").2)) :=
  ⟨⟨by decide, by decide,
    ((auth_rejects_before_store cfgAuth none 0 completeSheet "abc123").1
      (by decide) (by decide)).1⟩,
   ⟨by decide,
    ((auth_rejects_before_store cfg0 none 0 emptySheet "mk").2 (by decide)).2.1⟩⟩

/-- C9: for every stored row whose run-count cell is empty or non-numeric,
every endpoint's read of that row treats the run count as 0 — the
response of `get-or-create` carries 0, `increment-run` carries `0 + 1`,
and the token payload carries 0 — and no parse error is ever surfaced (the
embedded readers are total). -/
theorem bad_runcount_defaults_to_zero (cfg : Config) (now : Int) (s : Sheet)
    (k : String) (r : Nat) (hf : findRowByKey s.rows k = some r)
    (hbad : pyStrip ((wsGetRow s.rows r).runCount) = "" ∨
      pyIntOfString (pyStrip ((wsGetRow s.rows r).runCount)) = none) :
    (licenseGetOrCreate cfg now s k).1.run_count = 0 ∧
    (licenseIncrementRun cfg now s k).1.run_count = 0 + 1 ∧
    (licenseIssueToken cfg now s k).1.rc = 0 := by
  have h0 := pyParseRunCell_eq_zero _ hbad
  refine ⟨?_, ?_, ?_⟩ <;>
    simp [licenseGetOrCreate, licenseIncrementRun, licenseIssueToken, buildOfflineToken,
      hf, h0]

theorem bad_runcount_defaults_to_zero_witness :
    findRowByKey badCountSheet.rows "abc123" = some 1 ∧
    (pyStrip ((wsGetRow badCountSheet.rows 1).runCount) = "" ∨
      pyIntOfString (pyStrip ((wsGetRow badCountSheet.rows 1).runCount)) = none) ∧
    ((licenseGetOrCreate cfg0 0 badCountSheet "abc123").1.run_count = 0 ∧
     (licenseIncrementRun cfg0 0 badCountSheet "abc123").1.run_count = 0 + 1 ∧
     (licenseIssueToken cfg0 0 badCountSheet "abc123").1.rc = 0) :=
  ⟨by decide, by decide,
   bad_runcount_defaults_to_zero cfg0 0 badCountSheet "abc123" 1 (by decide)
     (Or.inr (by decide))⟩
